import Mathlib

/-!
Shallow embedding of the loans-app client core (device-loan web application):
retry/backoff policy, fake and HTTP service implementations, use cases and
reactive state containers, translated from the TypeScript sources under
`src/`.  Machine numbers are modelled as `Int`/`Nat`; the floating-point
arithmetic of the backoff computation is modelled over `ℚ` with the random
jitter factor an explicit parameter in `[0, 1)`; thrown JavaScript values are
modelled by the `JsThrown` type; fallible operations return `Except`.
-/

/-- A thrown JavaScript value as observed by `catch` blocks:
a `TypeError` (with its message), any other `Error` (with its message), or a
non-`Error` value carried as its `String(...)` conversion. -/
inductive JsThrown where
  | typeError (message : String)
  | errObj (message : String)
  | nonError (stringRepr : String)
deriving DecidableEq, Repr

/-- `err instanceof Error ? err.message : String(err)` — the error-message
normalisation used by the inventory use cases and the state containers. -/
def JsThrown.messageOrString : JsThrown → String
  | .typeError m => m
  | .errObj m => m
  | .nonError s => s

/-- `err instanceof Error ? err.message : fallback` — the error-message
normalisation used by the reservation use cases. -/
def JsThrown.messageOrFallback (fallback : String) : JsThrown → String
  | .typeError m => m
  | .errObj m => m
  | .nonError _ => fallback

namespace Retry

/- src/infra/retry.ts -/

/-- `RetryOptions` from `src/infra/retry.ts`. -/
structure RetryOptions where
  attempts : Nat
  baseDelayMs : ℚ
  maxDelayMs : ℚ
deriving Repr

/-- `defaultRetryOptions`: 3 attempts, 500ms base delay, 4000ms cap. -/
def defaultRetryOptions : RetryOptions :=
  { attempts := 3, baseDelayMs := 500, maxDelayMs := 4000 }

/-- `isRetryableHttpStatus`: 408, 429 and any status ≥ 500. -/
def isRetryableHttpStatus (status : Int) : Bool :=
  status == 408 || status == 429 || status ≥ 500

/-- `computeBackoffDelayMs` from `src/infra/retry.ts`.  `rand` stands for the
`Math.random()` draw, a value in `[0, 1)`; JavaScript's `Math.round` is
`⌊x + 1/2⌋`, which is Mathlib's `round` on `ℚ`. -/
def computeBackoffDelayMs (attemptIndexZeroBased : Nat)
    (baseDelayMs maxDelayMs : ℚ) (rand : ℚ) : ℤ :=
  let e := min maxDelayMs (baseDelayMs * 2 ^ attemptIndexZeroBased)
  let jitter := e * (1 / 5 * rand)
  round (e + jitter)

/-- ASCII lower-casing of one character (all the regular-expression
alternatives in `isLikelyNetworkError` are ASCII). -/
def lowerChar (c : Char) : Char :=
  if 65 ≤ c.toNat ∧ c.toNat ≤ 90 then Char.ofNat (c.toNat + 32) else c

/-- Prefix test on character lists. -/
def prefixChars : List Char → List Char → Bool
  | [], _ => true
  | _ :: _, [] => false
  | a :: as, b :: bs => a == b && prefixChars as bs

/-- Whether `needle` occurs as a contiguous run inside `hay`. -/
def subChars (needle : List Char) : List Char → Bool
  | [] => prefixChars needle []
  | c :: cs => prefixChars needle (c :: cs) || subChars needle cs

/-- Case-insensitive substring test on strings, modelling the `i` flag of the
regular-expression test in `isLikelyNetworkError`. -/
def containsCI (hay needle : String) : Bool :=
  subChars (needle.data.map lowerChar) (hay.data.map lowerChar)

/-- `isLikelyNetworkError`: `TypeError`s, and `Error`s whose message matches
`/failed to fetch|networkerror|load failed|fetch/i`. -/
def isLikelyNetworkError : JsThrown → Bool
  | .typeError _ => true
  | .errObj m =>
    containsCI m "failed to fetch" || containsCI m "networkerror" ||
      containsCI m "load failed" || containsCI m "fetch"
  | .nonError _ => false

end Retry

/- Domain data model, from `src/app/inventory-service.ts` and
`src/app/reservation-service.ts`.  JavaScript `Date` values are modelled as
their millisecond timestamps (`Int`). -/

/-- A reservation status: `'reserved' | 'collected' | 'returned'`. -/
inductive RStatus where
  | reserved
  | collected
  | returned
deriving DecidableEq, Repr

/-- The `Reservation` domain entity. -/
structure Reservation where
  id : String
  userId : String
  deviceModelId : String
  deviceModelName : String
  status : RStatus
  createdAt : Int
  updatedAt : Int
  collectedAt : Option Int := none
  returnedAt : Option Int := none
deriving DecidableEq, Repr

/-- The `Device` domain entity (`count` is optional in the TypeScript type). -/
structure Device where
  id : String
  name : String
  description : String
  count : Option Int := none
  updatedAt : Int
deriving DecidableEq, Repr

/-- A date string as consumed by `new Date(...)`: either one that parses to a
millisecond timestamp, or one JavaScript deems an invalid date. -/
inductive DateStr where
  | valid (ms : Int)
  | invalid
deriving DecidableEq, Repr

namespace HttpRsv

/- `HttpReservationService`, from the repository source (the class whose
`listReservations` drives the retry loop). -/

/-- The wire shape of one reservation object, with dates already given as the
timestamps `new Date(...)` produces (reservation parsing performs no date
validation). -/
structure ReservationDto where
  id : String
  userId : String
  deviceModelId : String
  deviceModelName : String
  status : RStatus
  createdAt : Int
  updatedAt : Int
  collectedAt : Option Int := none
  returnedAt : Option Int := none
deriving DecidableEq, Repr

/-- `parseReservation`: field-by-field mapping into the domain entity;
`collectedAt`/`returnedAt` are set only when the wire value is truthy. -/
def parseReservation (data : ReservationDto) : Reservation :=
  { id := data.id
    userId := data.userId
    deviceModelId := data.deviceModelId
    deviceModelName := data.deviceModelName
    status := data.status
    createdAt := data.createdAt
    updatedAt := data.updatedAt
    collectedAt := data.collectedAt
    returnedAt := data.returnedAt }

/-- The JSON value produced by `res.json()` on a reservations-list response:
either an array of reservation objects, or any non-array value (for example an
envelope object `{data: [...], count: n}` — the code reads only the
`error.message` field of a non-array body, and only on non-ok responses;
`errMessage` carries that field when present). -/
inductive RJson where
  | arr (xs : List ReservationDto)
  | nonArr (errMessage : Option String)
deriving DecidableEq, Repr

/-- An HTTP response as seen by `listReservations`: status, status text, and
the result of `res.json()` (`Except.error` when the body is not valid JSON,
carrying the parse error's message). -/
structure RResp where
  status : Int
  statusText : String
  json : Except String RJson
deriving Repr

/-- What one `fetch` attempt produces: a settled response, or a rejection
(network failure and the like). -/
inductive RAttempt where
  | resp (r : RResp)
  | fetchThrow (e : JsThrown)
deriving Repr

/-- `Response.ok`: status in the 200–299 range. -/
def respOk (r : RResp) : Bool :=
  200 ≤ r.status && r.status ≤ 299

/-- The message computed for a non-ok response:
`errorData?.error?.message || `${res.status} ${res.statusText}``, where
`errorData` is `await res.json().catch(() => ({}))`. -/
def nonOkMessage (r : RResp) : String :=
  let base := toString r.status ++ " " ++ r.statusText
  match r.json with
  | .ok (.nonArr (some m)) => if m = "" then base else m
  | _ => base

/-- The code that runs after the `for` loop in `listReservations` exhausts its
attempts. -/
def afterLoop (lastRes : Option RResp) : Except JsThrown (List Reservation × Nat) :=
  match lastRes with
  | some r =>
    if ¬respOk r ∧ Retry.isRetryableHttpStatus r.status then
      .error (.errObj ("Reservations service temporarily unavailable (" ++
        toString r.status ++ "). Please try again in a moment."))
    else .error (.errObj "Failed to list reservations")
  | none => .error (.errObj "Failed to list reservations")

/-- The inner `catch` of the retry loop: retry on a likely network error when
attempts remain, otherwise rethrow.  `next` continues the loop. -/
def innerCatch (attempts attempt : Nat) (e : JsThrown)
    (next : Except JsThrown (List Reservation × Nat)) :
    Except JsThrown (List Reservation × Nat) :=
  if attempt < attempts ∧ Retry.isLikelyNetworkError e then next else .error e

/-- The body of `listReservations`'s retry loop, one iteration per fuel unit;
`env n` is what the `fetch` of attempt `n` produces. -/
def listLoop (env : Nat → RAttempt) (attempts : Nat) :
    Nat → Nat → Option RResp → Except JsThrown (List Reservation × Nat)
  | 0, _, lastRes => afterLoop lastRes
  | fuel + 1, attempt, lastRes =>
    match env attempt with
    | .fetchThrow e =>
      innerCatch attempts attempt e (listLoop env attempts fuel (attempt + 1) lastRes)
    | .resp r =>
      if ¬respOk r ∧ Retry.isRetryableHttpStatus r.status ∧ attempt < attempts then
        listLoop env attempts fuel (attempt + 1) (some r)
      else if ¬respOk r then
        innerCatch attempts attempt
          (.errObj ("Failed to list reservations: " ++ nonOkMessage r))
          (listLoop env attempts fuel (attempt + 1) (some r))
      else
        match r.json with
        | .error m =>
          innerCatch attempts attempt (.errObj m)
            (listLoop env attempts fuel (attempt + 1) (some r))
        | .ok (.arr xs) => .ok (xs.map parseReservation, (xs.map parseReservation).length)
        | .ok (.nonArr _) => .ok ([], 0)

/-- `HttpReservationService.listReservations` under `defaultRetryOptions`
(3 attempts), as a function of the per-attempt fetch outcomes.  The outer
`try`/`catch` only reports telemetry and rethrows, so it is the identity on
the result. -/
def listReservations (env : Nat → RAttempt) : Except JsThrown (List Reservation × Nat) :=
  listLoop env Retry.defaultRetryOptions.attempts Retry.defaultRetryOptions.attempts 1 none

end HttpRsv

namespace HttpInv

/- `HttpInventoryService`, from `src/infra/http-inventory-service.ts`. -/

/-- `DeviceDto`: the wire shape of one device, `updatedAt` still a date
string. -/
structure DeviceDto where
  id : String
  name : String
  description : String
  count : Int
  updatedAt : DateStr
deriving DecidableEq, Repr

/-- `toDate`: `new Date(v)`, throwing `"Invalid updatedAt date"` when the
result is an invalid date. -/
def toDate : DateStr → Except String Int
  | .valid ms => .ok ms
  | .invalid => .error "Invalid updatedAt date"

/-- `toDomainDevice`: field mapping, with date validation. -/
def toDomainDevice (dto : DeviceDto) : Except String Device := do
  let ms ← toDate dto.updatedAt
  .ok { id := dto.id, name := dto.name, description := dto.description,
        count := some dto.count, updatedAt := ms }

/-- The body of a non-2xx response as `ensureOk` examines it: a JSON body
(per its `content-type`) with optional `message` and `error` string fields, a
JSON body that fails to parse, or a plain-text body. -/
inductive ErrBody where
  | jsonBody (message : Option String) (error : Option String)
  | jsonBad
  | textBody (text : String)
deriving DecidableEq, Repr

/-- `errBody.message || errBody.error` with JavaScript truthiness (an empty
string is falsy). -/
def firstTruthy : Option String → Option String → Option String
  | some m, some e => if m = "" then (if e = "" then none else some e) else some m
  | some m, none => if m = "" then none else some m
  | none, some e => if e = "" then none else some e
  | none, none => none

/-- `HttpInventoryService.ensureOk`: `Except.ok` on a 2xx status, otherwise
the raised error's message — `"{status} {statusText}"`, suffixed with
`" - {detail}"` from a truthy JSON `message`/`error` field or from a non-empty
text body truncated to 300 characters. -/
def ensureOk (status : Int) (statusText : String) (body : ErrBody) :
    Except String Unit :=
  if 200 ≤ status ∧ status ≤ 299 then .ok ()
  else
    let base := toString status ++ " " ++ statusText
    let message :=
      match body with
      | .jsonBody m e =>
        match firstTruthy m e with
        | some msg => base ++ " - " ++ msg
        | none => base
      | .jsonBad => base
      | .textBody t => if t = "" then base else base ++ " - " ++ t.take 300
    .error message

/-- The parsed JSON body of a 2xx list response:
`{data?: DeviceDto[], count?: number, errors?: string[]}` (fields that are
absent or not of the expected array/number shape are `none`). -/
structure ListDevicesResponseDto where
  data : Option (List DeviceDto) := none
  count : Option Int := none
  errors : Option (List String) := none
deriving Repr

/-- The response-body handling of `HttpInventoryService.listInventoryItems`
after `ensureOk` has passed: reject on a non-empty `errors` array, map every
element of `data` (defaulting to `[]`) into a domain device, and take
`totalCount` from `count` when it is a number, else from the mapped items'
length. -/
def listInventoryItemsBody (body : ListDevicesResponseDto) :
    Except String (List Device × Int) :=
  let errs := body.errors.getD []
  if errs.length ≠ 0 then .error (String.intercalate "; " errs)
  else
    match (body.data.getD []).mapM toDomainDevice with
    | .error e => .error e
    | .ok mapped =>
      let totalCount := match body.count with
        | some n => n
        | none => (mapped.length : Int)
      .ok (mapped, totalCount)

end HttpInv

namespace FakeRsv

/- `FakeReservationService`, from `src/infra/fake-reservation-service.ts`.
The current time at each call is passed explicitly as `now`. -/

/-- The service's private state: the ordered reservation list and the
monotonic id counter (`nextId`, starting at 1). -/
structure RState where
  items : List Reservation
  nextId : Nat
deriving DecidableEq, Repr

/-- `CreateReservationInput`. -/
structure CreateReservationInput where
  deviceModelId : String
  deviceModelName : String
deriving DecidableEq, Repr

/-- `this.items.find((r) => r.id === id)`. -/
def findById (id : String) (items : List Reservation) : Option Reservation :=
  items.find? (fun r => r.id == id)

/-- Replace the element at the first index whose id matches (the
`findIndex` + `this.items[index] = updated` pair). -/
def replaceFirstById (id : String) (updated : Reservation) :
    List Reservation → List Reservation
  | [] => []
  | r :: rs =>
    if r.id == id then updated :: rs else r :: replaceFirstById id updated rs

/-- Remove the element at the first index whose id matches (the
`findIndex` + `splice(index, 1)` pair). -/
def removeFirstById (id : String) : List Reservation → List Reservation
  | [] => []
  | r :: rs => if r.id == id then rs else r :: removeFirstById id rs

/-- `createReservation`: assigns `res-{nextId}`, owner `"test-user-id"`,
status `reserved`, both timestamps `now`, and appends the item. -/
def createReservation (now : Int) (input : CreateReservationInput)
    (s : RState) : RState × Reservation :=
  let newItem : Reservation :=
    { id := "res-" ++ toString s.nextId
      userId := "test-user-id"
      deviceModelId := input.deviceModelId
      deviceModelName := input.deviceModelName
      status := .reserved
      createdAt := now
      updatedAt := now }
  ({ items := s.items ++ [newItem], nextId := s.nextId + 1 }, newItem)

/-- `updateReservationStatus`: throws `"Reservation {id} not found"` when
absent; otherwise sets the status, refreshes `updatedAt`, and sets
`collectedAt`/`returnedAt` to `now` exactly when moving into those statuses
(keeping the old values otherwise). -/
def updateReservationStatus (now : Int) (id : String) (status : RStatus)
    (s : RState) : Except String (RState × Reservation) :=
  match findById id s.items with
  | none => .error ("Reservation " ++ id ++ " not found")
  | some item =>
    let updated : Reservation :=
      { item with
        status := status
        updatedAt := now
        collectedAt := if status = .collected then some now else item.collectedAt
        returnedAt := if status = .returned then some now else item.returnedAt }
    .ok ({ s with items := replaceFirstById id updated s.items }, updated)

/-- `deleteReservation`: throws `"Reservation {id} not found"` when absent;
otherwise splices the first matching element out. -/
def deleteReservation (id : String) (s : RState) : Except String RState :=
  match findById id s.items with
  | none => .error ("Reservation " ++ id ++ " not found")
  | some _ => .ok { s with items := removeFirstById id s.items }

/-- The timestamp invariant of one reservation: `collectedAt` present iff the
status is `collected` or `returned`, and `returnedAt` present iff the status
is `returned`. -/
def tsInvariant (r : Reservation) : Prop :=
  (r.collectedAt.isSome = true ↔ (r.status = .collected ∨ r.status = .returned)) ∧
    (r.returnedAt.isSome = true ↔ r.status = .returned)

instance (r : Reservation) : Decidable (tsInvariant r) := by
  unfold tsInvariant; infer_instance

/-- The timestamp invariant of a whole service state. -/
def stateInv (s : RState) : Prop :=
  ∀ r ∈ s.items, tsInvariant r

instance (s : RState) : Decidable (stateInv s) := by
  unfold stateInv; exact List.decidableBAll _ _

/-- The numeric rank of a status along `reserved → collected → returned`. -/
def statusRank : RStatus → Nat
  | .reserved => 0
  | .collected => 1
  | .returned => 2

/-- A single forward step of the reservation lifecycle: the new status equals
the old one, or advances it by exactly one stage. -/
def stepOk (old new : RStatus) : Prop :=
  statusRank new = statusRank old ∨ statusRank new = statusRank old + 1

instance (a b : RStatus) : Decidable (stepOk a b) := by
  unfold stepOk; infer_instance

/-- States reachable through `FakeReservationService` calls whose status
updates move each reservation forward by at most one stage.  Failed calls
leave the state unchanged, so they need no constructor. -/
inductive ReachF : RState → RState → Prop where
  | refl (s : RState) : ReachF s s
  | create {a b : RState} (now : Int) (input : CreateReservationInput) :
      ReachF a b → ReachF a (createReservation now input b).1
  | update {a b s' : RState} {it r' : Reservation}
      (now : Int) (id : String) (st : RStatus) :
      ReachF a b →
      findById id b.items = some it →
      stepOk it.status st →
      updateReservationStatus now id st b = .ok (s', r') →
      ReachF a s'
  | del {a b s' : RState} (id : String) :
      ReachF a b →
      deleteReservation id b = .ok s' →
      ReachF a s'

end FakeRsv

namespace FakeInv

/- `FakeInventoryService`, from `src/infra/fake-inventory-service.ts`. -/

/-- The service's private state: the ordered device list and the id
counter. -/
structure IState where
  items : List Device
  idCounter : Nat
deriving DecidableEq, Repr

/-- `AddDeviceInput` (the `count` field is optional). -/
structure AddDeviceInput where
  name : String
  description : String
  count : Option Int := none
deriving DecidableEq, Repr

/-- `addInventoryItem`: generates `dev_{n}` from the bumped counter, defaults
an omitted `count` to 1, stamps `updatedAt` with `now`, and unshifts the item
to the front of the list. -/
def addInventoryItem (now : Int) (input : AddDeviceInput) (s : IState) :
    IState × Device :=
  let item : Device :=
    { id := "dev_" ++ toString (s.idCounter + 1)
      name := input.name
      description := input.description
      count := some (input.count.getD 1)
      updatedAt := now }
  ({ items := item :: s.items, idCounter := s.idCounter + 1 }, item)

end FakeInv

namespace UseCase

/- The eight use cases of `src/app/`.  A use case invokes one service method
and converts its settled outcome; the outcome is passed here as an
`Except JsThrown α` (resolution value or thrown value). -/

/-- The discriminated result every use case returns:
`{success: true, ...data}` or `{success: false, errors: [...]}`. -/
inductive UCResult (α : Type) where
  | success (data : α)
  | failure (errors : List String)
deriving DecidableEq, Repr

/-- `listInventory` (`src/app/list-inventory.ts`): non-`Error` throws are
converted with `String(err)`. -/
def listInventory (o : Except JsThrown (List Device × Int)) :
    UCResult (List Device × Int) :=
  match o with
  | .ok d => .success d
  | .error e => .failure [e.messageOrString]

/-- `AddInventoryCommand` (`src/app/add-inventory.ts`). -/
structure AddInventoryCommand where
  name : String
  description : String
  count : Option Int := none
deriving DecidableEq, Repr

/-- The `AddDeviceInput` that `addInventory` builds before calling the
service: an omitted `count` is defaulted to 1. -/
def addInventoryInput (command : AddInventoryCommand) : FakeInv.AddDeviceInput :=
  { name := command.name
    description := command.description
    count := some (command.count.getD 1) }

/-- `addInventory`: non-`Error` throws are converted with `String(err)`. -/
def addInventory (o : Except JsThrown Device) : UCResult Device :=
  match o with
  | .ok item => .success item
  | .error e => .failure [e.messageOrString]

/-- `updateInventory` (`src/app/update-inventory.ts`): non-`Error` throws are
converted with `String(err)`. -/
def updateInventory (o : Except JsThrown Device) : UCResult Device :=
  match o with
  | .ok item => .success item
  | .error e => .failure [e.messageOrString]

/-- `deleteInventory` (`src/app/delete-inventory.ts`): non-`Error` throws are
converted with `String(err)`. -/
def deleteInventory (o : Except JsThrown Unit) : UCResult Unit :=
  match o with
  | .ok _ => .success ()
  | .error e => .failure [e.messageOrString]

/-- `listReservations` (`src/app/list-reservations.ts`): non-`Error` throws
fall back to the fixed string `"Failed to list reservations"`. -/
def listReservations (o : Except JsThrown (List Reservation × Nat)) :
    UCResult (List Reservation × Nat) :=
  match o with
  | .ok d => .success d
  | .error e => .failure [e.messageOrFallback "Failed to list reservations"]

/-- `createReservation`: fixed fallback `"Failed to create reservation"`. -/
def createReservation (o : Except JsThrown Reservation) : UCResult Reservation :=
  match o with
  | .ok item => .success item
  | .error e => .failure [e.messageOrFallback "Failed to create reservation"]

/-- `updateReservationStatus`: fixed fallback
`"Failed to update reservation status"`. -/
def updateReservationStatus (o : Except JsThrown Reservation) :
    UCResult Reservation :=
  match o with
  | .ok item => .success item
  | .error e => .failure [e.messageOrFallback "Failed to update reservation status"]

/-- `deleteReservation` (`src/app/delete-reservation.ts`): fixed fallback
`"Failed to delete reservation"`. -/
def deleteReservation (o : Except JsThrown Unit) : UCResult Unit :=
  match o with
  | .ok _ => .success ()
  | .error e => .failure [e.messageOrFallback "Failed to delete reservation"]

end UseCase

/-- What a container's `await uses.x(...)` settles to: the use case's
discriminated result, or (defensively) a thrown value. -/
inductive CallOutcome (α : Type) where
  | result (r : UseCase.UCResult α)
  | thrown (e : JsThrown)
deriving Repr

namespace UseInv

/- The inventory state container `useInventory`
(`src/composables/use-inventory.ts`).  Each operation is split into its
synchronous prefix (`*Begin`: the guard having passed, the flag set and
`error` cleared) and the continuation after the awaited use case settles
(`*Complete`, whose `finally` clears the flag); the full run composes the two
behind the in-flight guard and also reports whether the use case was
invoked. -/

/-- The container's reactive fields. -/
structure InvState where
  items : List Device
  totalCount : Int
  loading : Bool
  adding : Bool
  updating : Bool
  deleting : Bool
  error : Option String
deriving DecidableEq, Repr

/-- `fetchItems` up to its `await`: `loading := true`, `error := null`. -/
def fetchBegin (s : InvState) : InvState :=
  { s with loading := true, error := none }

/-- `fetchItems` after its `await`, including the `finally`. -/
def fetchComplete (s : InvState) (o : CallOutcome (List Device × Int)) : InvState :=
  let s' :=
    match o with
    | .result (.success d) => { s with items := d.1, totalCount := d.2 }
    | .result (.failure errs) =>
      { s with error := some (String.intercalate "; " errs), items := [], totalCount := 0 }
    | .thrown e =>
      { s with error := some e.messageOrString, items := [], totalCount := 0 }
  { s' with loading := false }

/-- A full `fetchItems` invocation; the boolean reports whether the use case
was called. -/
def fetchItems (s : InvState) (o : CallOutcome (List Device × Int)) :
    InvState × Bool :=
  if s.loading then (s, false) else (fetchComplete (fetchBegin s) o, true)

/-- `add` up to its `await`. -/
def addBegin (s : InvState) : InvState :=
  { s with adding := true, error := none }

/-- `add` after its `await`: success prepends the item and bumps the count
(never below the new list's length). -/
def addComplete (s : InvState) (o : CallOutcome Device) : InvState :=
  let s' :=
    match o with
    | .result (.success item) =>
      let newItems := item :: s.items
      { s with items := newItems,
               totalCount := max (s.totalCount + 1) (newItems.length : Int) }
    | .result (.failure errs) =>
      { s with error := some (String.intercalate "; " errs) }
    | .thrown e => { s with error := some e.messageOrString }
  { s' with adding := false }

/-- A full `add` invocation. -/
def add (s : InvState) (o : CallOutcome Device) : InvState × Bool :=
  if s.adding then (s, false) else (addComplete (addBegin s) o, true)

/-- `update` up to its `await`. -/
def updateBegin (s : InvState) : InvState :=
  { s with updating := true, error := none }

/-- `update` after its `await`: success replaces the matching items by id. -/
def updateComplete (s : InvState) (o : CallOutcome Device) : InvState :=
  let s' :=
    match o with
    | .result (.success item) =>
      { s with items := s.items.map (fun (i : Device) => if i.id == item.id then item else i) }
    | .result (.failure errs) =>
      { s with error := some (String.intercalate "; " errs) }
    | .thrown e => { s with error := some e.messageOrString }
  { s' with updating := false }

/-- A full `update` invocation. -/
def update (s : InvState) (o : CallOutcome Device) : InvState × Bool :=
  if s.updating then (s, false) else (updateComplete (updateBegin s) o, true)

/-- `remove` up to its `await`. -/
def removeBegin (s : InvState) : InvState :=
  { s with deleting := true, error := none }

/-- `remove` after its `await`: success filters the id out and decrements the
count (never below the new list's length). -/
def removeComplete (commandId : String) (s : InvState) (o : CallOutcome Unit) :
    InvState :=
  let s' :=
    match o with
    | .result (.success _) =>
      let newItems := s.items.filter (fun (i : Device) => i.id != commandId)
      { s with items := newItems,
               totalCount := max (s.totalCount - 1) (newItems.length : Int) }
    | .result (.failure errs) =>
      { s with error := some (String.intercalate "; " errs) }
    | .thrown e => { s with error := some e.messageOrString }
  { s' with deleting := false }

/-- A full `remove` invocation. -/
def remove (commandId : String) (s : InvState) (o : CallOutcome Unit) :
    InvState × Bool :=
  if s.deleting then (s, false)
  else (removeComplete commandId (removeBegin s) o, true)

end UseInv

namespace UseRsv

/- The reservation state container `useReservations`
(`src/composables/use-reservations.ts`), identical in structure with
`creating` in place of `adding`. -/

/-- The container's reactive fields. -/
structure RsvState where
  items : List Reservation
  totalCount : Int
  loading : Bool
  creating : Bool
  updating : Bool
  deleting : Bool
  error : Option String
deriving DecidableEq, Repr

/-- `fetchItems` up to its `await`. -/
def fetchBegin (s : RsvState) : RsvState :=
  { s with loading := true, error := none }

/-- `fetchItems` after its `await`, including the `finally`. -/
def fetchComplete (s : RsvState) (o : CallOutcome (List Reservation × Nat)) :
    RsvState :=
  let s' :=
    match o with
    | .result (.success d) => { s with items := d.1, totalCount := (d.2 : Int) }
    | .result (.failure errs) =>
      { s with error := some (String.intercalate "; " errs), items := [], totalCount := 0 }
    | .thrown e =>
      { s with error := some e.messageOrString, items := [], totalCount := 0 }
  { s' with loading := false }

/-- A full `fetchItems` invocation. -/
def fetchItems (s : RsvState) (o : CallOutcome (List Reservation × Nat)) :
    RsvState × Bool :=
  if s.loading then (s, false) else (fetchComplete (fetchBegin s) o, true)

/-- `create` up to its `await`. -/
def createBegin (s : RsvState) : RsvState :=
  { s with creating := true, error := none }

/-- `create` after its `await`. -/
def createComplete (s : RsvState) (o : CallOutcome Reservation) : RsvState :=
  let s' :=
    match o with
    | .result (.success item) =>
      let newItems := item :: s.items
      { s with items := newItems,
               totalCount := max (s.totalCount + 1) (newItems.length : Int) }
    | .result (.failure errs) =>
      { s with error := some (String.intercalate "; " errs) }
    | .thrown e => { s with error := some e.messageOrString }
  { s' with creating := false }

/-- A full `create` invocation. -/
def create (s : RsvState) (o : CallOutcome Reservation) : RsvState × Bool :=
  if s.creating then (s, false) else (createComplete (createBegin s) o, true)

/-- `updateStatusFn` up to its `await`. -/
def updateStatusBegin (s : RsvState) : RsvState :=
  { s with updating := true, error := none }

/-- `updateStatusFn` after its `await`: success replaces matching items by
id (the count is untouched). -/
def updateStatusComplete (s : RsvState) (o : CallOutcome Reservation) : RsvState :=
  let s' :=
    match o with
    | .result (.success item) =>
      { s with items := s.items.map (fun (i : Reservation) => if i.id == item.id then item else i) }
    | .result (.failure errs) =>
      { s with error := some (String.intercalate "; " errs) }
    | .thrown e => { s with error := some e.messageOrString }
  { s' with updating := false }

/-- A full `updateStatusFn` invocation. -/
def updateStatusFn (s : RsvState) (o : CallOutcome Reservation) :
    RsvState × Bool :=
  if s.updating then (s, false)
  else (updateStatusComplete (updateStatusBegin s) o, true)

/-- `remove` up to its `await`. -/
def removeBegin (s : RsvState) : RsvState :=
  { s with deleting := true, error := none }

/-- `remove` after its `await`. -/
def removeComplete (commandId : String) (s : RsvState) (o : CallOutcome Unit) :
    RsvState :=
  let s' :=
    match o with
    | .result (.success _) =>
      let newItems := s.items.filter (fun (i : Reservation) => i.id != commandId)
      { s with items := newItems,
               totalCount := max (s.totalCount - 1) (newItems.length : Int) }
    | .result (.failure errs) =>
      { s with error := some (String.intercalate "; " errs) }
    | .thrown e => { s with error := some e.messageOrString }
  { s' with deleting := false }

/-- A full `remove` invocation. -/
def remove (commandId : String) (s : RsvState) (o : CallOutcome Unit) :
    RsvState × Bool :=
  if s.deleting then (s, false)
  else (removeComplete commandId (removeBegin s) o, true)

end UseRsv

/- ===================== Theorems ===================== -/

/-- C8 (confirmed): for every attempt index, base/cap and jitter draw
`r ∈ [0, 1)`, `computeBackoffDelayMs` is `round(e + e * 0.2 * r)` with
`e = min(maxDelayMs, baseDelayMs * 2^i)`; consequently
`computeBackoffDelayMs(0, 500, 4000)` lies in `[500, 600]` and
`computeBackoffDelayMs(10, 500, 4000)` lies in `[4000, 4800]`. -/
theorem C8_computeBackoffDelayMs_bounds (i : Nat) (b m r : ℚ)
    (h0 : 0 ≤ r) (h1 : r < 1) :
    Retry.computeBackoffDelayMs i b m r =
      round (min m (b * 2 ^ i) + min m (b * 2 ^ i) * (1 / 5 * r)) ∧
    500 ≤ Retry.computeBackoffDelayMs 0 500 4000 r ∧
    Retry.computeBackoffDelayMs 0 500 4000 r ≤ 600 ∧
    4000 ≤ Retry.computeBackoffDelayMs 10 500 4000 r ∧
    Retry.computeBackoffDelayMs 10 500 4000 r ≤ 4800 := by
  have e0 : Retry.computeBackoffDelayMs 0 500 4000 r =
      ⌊(500 : ℚ) + 500 * (1 / 5 * r) + 1 / 2⌋ := by
    simp [Retry.computeBackoffDelayMs, round_eq]
    norm_num
  have e10 : Retry.computeBackoffDelayMs 10 500 4000 r =
      ⌊(4000 : ℚ) + 4000 * (1 / 5 * r) + 1 / 2⌋ := by
    simp [Retry.computeBackoffDelayMs, round_eq]
    norm_num
  refine ⟨rfl, ?_, ?_, ?_, ?_⟩
  · rw [e0, Int.le_floor]
    push_cast
    linarith
  · rw [e0, Int.floor_le_iff]
    push_cast
    linarith
  · rw [e10, Int.le_floor]
    push_cast
    linarith
  · rw [e10, Int.floor_le_iff]
    push_cast
    linarith

/-- Witness for C8 at the concrete jitter draw `r = 1/2`. -/
theorem C8_computeBackoffDelayMs_bounds_witness :
    (0 : ℚ) ≤ 1 / 2 ∧ (1 / 2 : ℚ) < 1 ∧
    500 ≤ Retry.computeBackoffDelayMs 0 500 4000 (1 / 2) ∧
    Retry.computeBackoffDelayMs 0 500 4000 (1 / 2) ≤ 600 ∧
    4000 ≤ Retry.computeBackoffDelayMs 10 500 4000 (1 / 2) ∧
    Retry.computeBackoffDelayMs 10 500 4000 (1 / 2) ≤ 4800 :=
  ⟨by norm_num, by norm_num,
    (C8_computeBackoffDelayMs_bounds 0 500 4000 (1 / 2) (by norm_num) (by norm_num)).2⟩

/-- C1 (code bug): when all three attempts of
`HttpReservationService.listReservations` receive a retryable status (here
503 thrice), the final attempt's `if (!lastRes.ok)` check throws
`"Failed to list reservations: 503 Service Unavailable"` inside the loop, so
the loop never exits normally and the distinct user-facing message
`"Reservations service temporarily unavailable (503). Please try again in a
moment."` that the code builds after the loop is unreachable.  The
network-error half of the claim does hold: exhausting the attempts on likely
network errors rejects with the underlying error (third conjunct). -/
theorem C1_retry_exhaustion_message :
    HttpRsv.listReservations
        (fun _ => .resp ⟨503, "Service Unavailable", .ok (.nonArr none)⟩) =
      .error (.errObj "Failed to list reservations: 503 Service Unavailable") ∧
    "Failed to list reservations: 503 Service Unavailable" ≠
      "Reservations service temporarily unavailable (503). Please try again in a moment." ∧
    HttpRsv.listReservations (fun _ => .fetchThrow (.typeError "Failed to fetch")) =
      .error (.typeError "Failed to fetch") :=
  ⟨rfl, by decide, rfl⟩

/-- C2 counterexample: the claim fails for the reservation list operation.  A
2xx response whose JSON body is a `{data: [...3 items], count: 5}` envelope is
a non-array value (`RJson.nonArr`), so `listReservations` returns an empty
item list with `totalCount = 0` — not the envelope's three mapped items with
`totalCount = 5`. -/
theorem C2_list_envelope_counterexample :
    HttpRsv.listReservations (fun _ => .resp ⟨200, "OK", .ok (.nonArr none)⟩) =
      .ok ([], 0) ∧
    HttpRsv.listReservations (fun _ => .resp ⟨200, "OK", .ok (.nonArr none)⟩) ≠
      .ok ([HttpRsv.parseReservation ⟨"r1", "u", "d", "Laptop", .reserved, 0, 0, none, none⟩,
            HttpRsv.parseReservation ⟨"r2", "u", "d", "Cam", .reserved, 0, 0, none, none⟩,
            HttpRsv.parseReservation ⟨"r3", "u", "d", "Mic", .reserved, 0, 0, none, none⟩], 5) := by
  refine ⟨rfl, fun h => ?_⟩
  rw [(rfl : HttpRsv.listReservations
      (fun _ => .resp ⟨200, "OK", .ok (.nonArr none)⟩) =
    .ok (([] : List Reservation), 0))] at h
  injection h with h2
  have := congrArg Prod.snd h2
  simp at this

/-- C2 (corrected): for every 2xx list response, the inventory operation
`listInventoryItems` accepts the `{data: [...], count?: n}` envelope —
`totalCount` is the body's `count` when it is a number and the mapped items'
length otherwise, and every element of `data` is mapped into a domain entity.
The reservation operation `listReservations`, however, parses the 2xx body as
a bare JSON array: an array body yields its mapped elements with
`totalCount = items.length` (always the array length, never a server count),
and any non-array body — including a `{data, count}` envelope — yields an
empty list with `totalCount = 0`. -/
theorem C2_list_envelope (dtos : List HttpInv.DeviceDto) (n : Int)
    (mapped : List Device)
    (hmap : dtos.mapM HttpInv.toDomainDevice = Except.ok mapped)
    (status : Int) (statusText : String)
    (h2a : 200 ≤ status) (h2b : status ≤ 299)
    (xs : List HttpRsv.ReservationDto) (m : Option String) :
    HttpInv.listInventoryItemsBody ⟨some dtos, some n, none⟩ =
      .ok (mapped, n) ∧
    HttpInv.listInventoryItemsBody ⟨some dtos, none, none⟩ =
      .ok (mapped, (mapped.length : Int)) ∧
    HttpRsv.listReservations (fun _ => .resp ⟨status, statusText, .ok (.arr xs)⟩) =
      .ok (xs.map HttpRsv.parseReservation, (xs.map HttpRsv.parseReservation).length) ∧
    HttpRsv.listReservations (fun _ => .resp ⟨status, statusText, .ok (.nonArr m)⟩) =
      .ok ([], 0) := by
  have hmap' : List.mapM.loop HttpInv.toDomainDevice dtos [] = Except.ok mapped := by
    simpa [List.mapM] using hmap
  refine ⟨?_, ?_, ?_, ?_⟩
  · simp [HttpInv.listInventoryItemsBody, hmap']
  · simp [HttpInv.listInventoryItemsBody, hmap']
  · simp [HttpRsv.listReservations, HttpRsv.listLoop, HttpRsv.respOk,
      Retry.defaultRetryOptions, h2a, h2b]
  · simp [HttpRsv.listReservations, HttpRsv.listLoop, HttpRsv.respOk,
      Retry.defaultRetryOptions, h2a, h2b]

/-- Witness for C2 at a concrete three-item envelope with `count: 5` (and
without `count`), and a concrete 200 reservation response. -/
theorem C2_list_envelope_witness :
    HttpInv.listInventoryItemsBody
        ⟨some [⟨"d1", "Laptop", "x", 1, .valid 10⟩,
               ⟨"d2", "Cam", "y", 2, .valid 20⟩,
               ⟨"d3", "Mic", "z", 3, .valid 30⟩], some 5, none⟩ =
      .ok ([⟨"d1", "Laptop", "x", some 1, 10⟩,
            ⟨"d2", "Cam", "y", some 2, 20⟩,
            ⟨"d3", "Mic", "z", some 3, 30⟩], 5) ∧
    HttpInv.listInventoryItemsBody
        ⟨some [⟨"d1", "Laptop", "x", 1, .valid 10⟩,
               ⟨"d2", "Cam", "y", 2, .valid 20⟩,
               ⟨"d3", "Mic", "z", 3, .valid 30⟩], none, none⟩ =
      .ok ([⟨"d1", "Laptop", "x", some 1, 10⟩,
            ⟨"d2", "Cam", "y", some 2, 20⟩,
            ⟨"d3", "Mic", "z", some 3, 30⟩], 3) ∧
    HttpRsv.listReservations
        (fun _ => .resp ⟨200, "OK", .ok (.arr [⟨"r1", "u", "d", "Laptop", .reserved, 0, 0, none, none⟩])⟩) =
      .ok ([⟨"r1", "u", "d", "Laptop", .reserved, 0, 0, none, none⟩], 1) := by
  have h := C2_list_envelope
    [⟨"d1", "Laptop", "x", 1, .valid 10⟩,
     ⟨"d2", "Cam", "y", 2, .valid 20⟩,
     ⟨"d3", "Mic", "z", 3, .valid 30⟩] 5
    [⟨"d1", "Laptop", "x", some 1, 10⟩,
     ⟨"d2", "Cam", "y", some 2, 20⟩,
     ⟨"d3", "Mic", "z", some 3, 30⟩] rfl
    200 "OK" (by norm_num) (by norm_num)
    [⟨"r1", "u", "d", "Laptop", .reserved, 0, 0, none, none⟩] none
  exact ⟨h.1, h.2.1, h.2.2.1⟩

/-- C5 (confirmed): on every non-2xx response `ensureOk` raises an error whose
message is `"{status} {statusText}"`, suffixed with `" - {detail}"` when the
JSON body carries a truthy `message` (or, failing that, `error`) field, or
when a non-JSON body has non-empty text (truncated to 300 characters); a JSON
body with neither field, an unparseable JSON body, or an empty text body
leaves the bare `"{status} {statusText}"`. -/
theorem C5_ensureOk_message (status : Int) (statusText : String)
    (h : ¬(200 ≤ status ∧ status ≤ 299)) :
    (∀ msg : String, msg ≠ "" →
      HttpInv.ensureOk status statusText (.jsonBody (some msg) none) =
        .error (toString status ++ " " ++ statusText ++ " - " ++ msg)) ∧
    (∀ msg : String, msg ≠ "" →
      HttpInv.ensureOk status statusText (.jsonBody none (some msg)) =
        .error (toString status ++ " " ++ statusText ++ " - " ++ msg)) ∧
    HttpInv.ensureOk status statusText (.jsonBody none none) =
      .error (toString status ++ " " ++ statusText) ∧
    HttpInv.ensureOk status statusText .jsonBad =
      .error (toString status ++ " " ++ statusText) ∧
    (∀ t : String, t ≠ "" →
      HttpInv.ensureOk status statusText (.textBody t) =
        .error (toString status ++ " " ++ statusText ++ " - " ++ t.take 300)) ∧
    HttpInv.ensureOk status statusText (.textBody "") =
      .error (toString status ++ " " ++ statusText) := by
  refine ⟨fun msg hm => ?_, fun msg hm => ?_, ?_, ?_, fun t ht => ?_, ?_⟩ <;>
    simp [HttpInv.ensureOk, HttpInv.firstTruthy, h] <;> simp_all

/-- Witness for C5 at the claim's concrete particular: a 400 response with
JSON body `{message: 'nope'}` raises exactly `"400 Bad Request - nope"`. -/
theorem C5_ensureOk_message_witness :
    HttpInv.ensureOk 400 "Bad Request" (.jsonBody (some "nope") none) =
      .error "400 Bad Request - nope" := by
  have h := (C5_ensureOk_message 400 "Bad Request" (by decide)).1 "nope" (by decide)
  simpa using h

/-- C9 (confirmed): an `AddInventoryCommand` with `count` omitted is given
`count = 1` by the `addInventory` use case before it reaches the service, and
`FakeInventoryService.addInventoryItem` itself also defaults an omitted
`count` to 1, so the resulting item always has `count = 1`. -/
theorem C9_add_count_defaults (c : UseCase.AddInventoryCommand)
    (hc : c.count = none)
    (input : FakeInv.AddDeviceInput) (hin : input.count = none)
    (s : FakeInv.IState) (now : Int) :
    (UseCase.addInventoryInput c).count = some 1 ∧
    (FakeInv.addInventoryItem now (UseCase.addInventoryInput c) s).2.count = some 1 ∧
    (FakeInv.addInventoryItem now input s).2.count = some 1 := by
  refine ⟨?_, ?_, ?_⟩ <;>
    simp [UseCase.addInventoryInput, FakeInv.addInventoryItem, hc, hin]

/-- Witness for C9 at a concrete command, input and empty fake-service
state. -/
theorem C9_add_count_defaults_witness :
    (UseCase.addInventoryInput ⟨"Mouse", "Wireless", none⟩).count = some 1 ∧
    (FakeInv.addInventoryItem 7 (UseCase.addInventoryInput ⟨"Mouse", "Wireless", none⟩)
        ⟨[], 0⟩).2.count = some 1 ∧
    (FakeInv.addInventoryItem 7 ⟨"Mouse", "Wireless", none⟩ ⟨[], 0⟩).2.count = some 1 :=
  C9_add_count_defaults ⟨"Mouse", "Wireless", none⟩ rfl ⟨"Mouse", "Wireless", none⟩ rfl ⟨[], 0⟩ 7

/-- C4 counterexample: the inventory use cases do not use a fixed
operation-specific fallback for non-`Error` thrown values — they use
`String(err)`, so the resulting message varies with the thrown value
(`updateInventory` shown here on the thrown strings `"boom"` and `"bam"`). -/
theorem C4_use_case_result_counterexample :
    UseCase.updateInventory (.error (.nonError "boom")) = .failure ["boom"] ∧
    UseCase.updateInventory (.error (.nonError "bam")) = .failure ["bam"] ∧
    "boom" ≠ "bam" :=
  ⟨rfl, rfl, by decide⟩

/-- C4 (corrected): every one of the eight use cases returns a resolved
discriminated result for every service-call outcome — `{success: true,
...data}` on resolution, `{success: false, errors: [message]}` on rejection,
where `message` is the caught error's message when the thrown value is an
`Error` instance; for a non-`Error` thrown value the four reservation use
cases use a fixed operation-specific fallback string, while the four
inventory use cases use the thrown value's string conversion `String(err)`. -/
theorem C4_use_case_results
    (dl : List Device × Int) (d : Device) (rl : List Reservation × Nat)
    (r : Reservation) (em : String) (e : JsThrown) :
    UseCase.listInventory (.ok dl) = .success dl ∧
    UseCase.addInventory (.ok d) = .success d ∧
    UseCase.updateInventory (.ok d) = .success d ∧
    UseCase.deleteInventory (.ok ()) = .success () ∧
    UseCase.listReservations (.ok rl) = .success rl ∧
    UseCase.createReservation (.ok r) = .success r ∧
    UseCase.updateReservationStatus (.ok r) = .success r ∧
    UseCase.deleteReservation (.ok ()) = .success () ∧
    UseCase.listInventory (.error (.errObj em)) = .failure [em] ∧
    UseCase.addInventory (.error (.errObj em)) = .failure [em] ∧
    UseCase.updateInventory (.error (.errObj em)) = .failure [em] ∧
    UseCase.deleteInventory (.error (.errObj em)) = .failure [em] ∧
    UseCase.listReservations (.error (.errObj em)) = .failure [em] ∧
    UseCase.createReservation (.error (.errObj em)) = .failure [em] ∧
    UseCase.updateReservationStatus (.error (.errObj em)) = .failure [em] ∧
    UseCase.deleteReservation (.error (.errObj em)) = .failure [em] ∧
    UseCase.listInventory (.error e) = .failure [e.messageOrString] ∧
    UseCase.addInventory (.error e) = .failure [e.messageOrString] ∧
    UseCase.updateInventory (.error e) = .failure [e.messageOrString] ∧
    UseCase.deleteInventory (.error e) = .failure [e.messageOrString] ∧
    UseCase.listReservations (.error (.nonError em)) =
      .failure ["Failed to list reservations"] ∧
    UseCase.createReservation (.error (.nonError em)) =
      .failure ["Failed to create reservation"] ∧
    UseCase.updateReservationStatus (.error (.nonError em)) =
      .failure ["Failed to update reservation status"] ∧
    UseCase.deleteReservation (.error (.nonError em)) =
      .failure ["Failed to delete reservation"] := by
  refine ⟨rfl, rfl, rfl, rfl, rfl, rfl, rfl, rfl, rfl, rfl, rfl, rfl, rfl, rfl,
    rfl, rfl, rfl, rfl, rfl, rfl, rfl, rfl, rfl, rfl⟩

/-- Every member of a first-match replacement is the replacement or an old
member. -/
theorem FakeRsv.mem_replaceFirstById {id : String} {u : Reservation}
    {l : List Reservation} {x : Reservation}
    (hx : x ∈ FakeRsv.replaceFirstById id u l) : x = u ∨ x ∈ l := by
  induction l with
  | nil => simp [FakeRsv.replaceFirstById] at hx
  | cons r rs ih =>
    by_cases hr : r.id == id
    · simp only [FakeRsv.replaceFirstById, hr, if_pos] at hx
      rcases List.mem_cons.mp hx with h | h
      · exact Or.inl h
      · exact Or.inr (List.mem_cons_of_mem r h)
    · simp only [FakeRsv.replaceFirstById, hr, if_neg] at hx
      rcases List.mem_cons.mp hx with h | h
      · exact Or.inr (h ▸ List.mem_cons_self r rs)
      · rcases ih h with h' | h'
        · exact Or.inl h'
        · exact Or.inr (List.mem_cons_of_mem r h')

/-- Every member of a first-match removal is an old member. -/
theorem FakeRsv.mem_removeFirstById {id : String} {l : List Reservation}
    {x : Reservation} (hx : x ∈ FakeRsv.removeFirstById id l) : x ∈ l := by
  induction l with
  | nil => simp [FakeRsv.removeFirstById] at hx
  | cons r rs ih =>
    by_cases hr : r.id == id
    · simp only [FakeRsv.removeFirstById, hr, if_pos] at hx
      exact List.mem_cons_of_mem r hx
    · simp only [FakeRsv.removeFirstById, hr, if_neg] at hx
      rcases List.mem_cons.mp hx with h | h
      · exact h ▸ List.mem_cons_self r rs
      · exact List.mem_cons_of_mem r (ih h)

/-- A status update that moves a reservation forward by at most one stage
preserves its timestamp invariant. -/
theorem FakeRsv.tsInvariant_updated (it : Reservation) (st : RStatus) (now : Int)
    (h : FakeRsv.tsInvariant it) (hs : FakeRsv.stepOk it.status st) :
    FakeRsv.tsInvariant
      { it with
        status := st,
        updatedAt := now,
        collectedAt := if st = .collected then some now else it.collectedAt,
        returnedAt := if st = .returned then some now else it.returnedAt } := by
  obtain ⟨iid, iu, idm, idn, ist, icr, iup, ica, ira⟩ := it
  obtain ⟨h1, h2⟩ := h
  cases ist <;> cases st <;>
    simp_all [FakeRsv.tsInvariant, FakeRsv.stepOk, FakeRsv.statusRank]

/-- C3 (corrected): the timestamp invariant — `collectedAt` present iff the
status is `collected` or `returned`, `returnedAt` present iff it is
`returned` — is preserved by every sequence of `createReservation`,
`updateReservationStatus` and `deleteReservation` calls in which each status
update moves the targeted reservation forward by at most one stage
(`reserved → collected → returned`, or an unchanged status); the original
claim's arbitrary sequences break it (see the counterexample) because the
service never clears timestamps and never back-fills `collectedAt` on a
direct `reserved → returned` jump. -/
theorem C3_timestamp_invariant {a b : FakeRsv.RState}
    (hreach : FakeRsv.ReachF a b) (hinv : FakeRsv.stateInv a) :
    FakeRsv.stateInv b := by
  induction hreach with
  | refl => exact hinv
  | @create b now input hr ih =>
    intro x hx
    simp only [FakeRsv.createReservation, List.mem_append, List.mem_singleton] at hx
    rcases hx with hx | hx
    · exact ih x hx
    · subst hx
      exact ⟨by simp, by simp⟩
  | @update b s' it r' now id st hr hfind hstep heq ih =>
    have hb := ih
    have hit : it ∈ b.items := List.mem_of_find?_eq_some hfind
    simp only [FakeRsv.updateReservationStatus, hfind] at heq
    injection heq with heq'
    obtain ⟨hs', _⟩ := Prod.mk.injEq .. ▸ heq'
    intro x hx
    rw [← hs'] at hx
    rcases FakeRsv.mem_replaceFirstById hx with hx' | hx'
    · subst hx'
      exact FakeRsv.tsInvariant_updated it st now (hb it hit) hstep
    · exact hb x hx'
  | @del b s' id hr heq ih =>
    have hb := ih
    rcases hf : FakeRsv.findById id b.items with _ | it
    · simp [FakeRsv.deleteReservation, hf] at heq
    · simp only [FakeRsv.deleteReservation, hf] at heq
      injection heq with heq'
      intro x hx
      rw [← heq'] at hx
      exact hb x (FakeRsv.mem_removeFirstById hx)

/-- C3 counterexample: from a state containing a single `reserved`
reservation with no timestamps (which satisfies the invariant), a direct
`updateReservationStatus` to `returned` yields a state whose reservation has
status `returned` but no `collectedAt` — violating the invariant, so the
claim is false for arbitrary call sequences. -/
theorem C3_timestamp_invariant_counterexample :
    FakeRsv.stateInv ⟨[⟨"res-1", "u", "d", "Laptop", .reserved, 0, 0, none, none⟩], 2⟩ ∧
    FakeRsv.updateReservationStatus 100 "res-1" .returned
        ⟨[⟨"res-1", "u", "d", "Laptop", .reserved, 0, 0, none, none⟩], 2⟩ =
      .ok (⟨[⟨"res-1", "u", "d", "Laptop", .returned, 0, 100, none, some 100⟩], 2⟩,
        ⟨"res-1", "u", "d", "Laptop", .returned, 0, 100, none, some 100⟩) ∧
    ¬ FakeRsv.stateInv
        ⟨[⟨"res-1", "u", "d", "Laptop", .returned, 0, 100, none, some 100⟩], 2⟩ :=
  ⟨by decide, rfl, by decide⟩

/-- The one-reservation states used to exercise the C3 theorems concretely. -/
def c3reserved : Reservation :=
  ⟨"res-1", "u", "d", "Laptop", .reserved, 0, 0, none, none⟩

/-- The reserved-state container for the C3 theorems. -/
def c3start : FakeRsv.RState := ⟨[c3reserved], 2⟩

/-- The reservation after a forward `collected` update at time 50. -/
def c3collected : Reservation :=
  ⟨"res-1", "u", "d", "Laptop", .collected, 0, 50, some 50, none⟩

/-- The container state after the forward `collected` update. -/
def c3afterCollect : FakeRsv.RState := ⟨[c3collected], 2⟩

/-- Witness for C3 at a concrete forward step: updating the single `reserved`
reservation to `collected` preserves the invariant. -/
theorem C3_timestamp_invariant_witness :
    FakeRsv.stateInv c3start ∧ FakeRsv.stateInv c3afterCollect :=
  ⟨by decide,
    C3_timestamp_invariant
      (@FakeRsv.ReachF.update c3start c3start c3afterCollect c3reserved c3collected
        50 "res-1" .collected (FakeRsv.ReachF.refl c3start)
        (by decide) (by decide) rfl)
      (by decide)⟩

/-- C6 (confirmed): in both containers, every operation kind is a silent
no-op — state fully unchanged, use case not invoked — when its own flag is
already set; an invocation that proceeds sets its flag at the start
(`*Begin`), invokes the use case, and clears the flag on every exit path
(`*Complete`, for success, logical failure and thrown exception alike); and a
second same-kind invocation issued while the first is in flight (i.e. against
the `*Begin` state) is a silent no-op, so two concurrent `fetchItems` calls
perform exactly one underlying use-case call. -/
theorem C6_in_flight_guard :
    (∀ (s : UseInv.InvState) o, s.loading = true → UseInv.fetchItems s o = (s, false)) ∧
    (∀ (s : UseInv.InvState), (UseInv.fetchBegin s).loading = true) ∧
    (∀ (s : UseInv.InvState) o, (UseInv.fetchComplete s o).loading = false) ∧
    (∀ (s : UseInv.InvState) o, s.loading = false →
      UseInv.fetchItems s o = (UseInv.fetchComplete (UseInv.fetchBegin s) o, true)) ∧
    (∀ (s : UseInv.InvState) o,
      UseInv.fetchItems (UseInv.fetchBegin s) o = (UseInv.fetchBegin s, false)) ∧
    (∀ (s : UseInv.InvState) o, s.adding = true → UseInv.add s o = (s, false)) ∧
    (∀ (s : UseInv.InvState), (UseInv.addBegin s).adding = true) ∧
    (∀ (s : UseInv.InvState) o, (UseInv.addComplete s o).adding = false) ∧
    (∀ (s : UseInv.InvState) o, s.adding = false →
      UseInv.add s o = (UseInv.addComplete (UseInv.addBegin s) o, true)) ∧
    (∀ (s : UseInv.InvState) o, s.updating = true → UseInv.update s o = (s, false)) ∧
    (∀ (s : UseInv.InvState), (UseInv.updateBegin s).updating = true) ∧
    (∀ (s : UseInv.InvState) o, (UseInv.updateComplete s o).updating = false) ∧
    (∀ (s : UseInv.InvState) o, s.updating = false →
      UseInv.update s o = (UseInv.updateComplete (UseInv.updateBegin s) o, true)) ∧
    (∀ (cid : String) (s : UseInv.InvState) o, s.deleting = true →
      UseInv.remove cid s o = (s, false)) ∧
    (∀ (s : UseInv.InvState), (UseInv.removeBegin s).deleting = true) ∧
    (∀ (cid : String) (s : UseInv.InvState) o,
      (UseInv.removeComplete cid s o).deleting = false) ∧
    (∀ (cid : String) (s : UseInv.InvState) o, s.deleting = false →
      UseInv.remove cid s o = (UseInv.removeComplete cid (UseInv.removeBegin s) o, true)) ∧
    (∀ (s : UseRsv.RsvState) o, s.loading = true → UseRsv.fetchItems s o = (s, false)) ∧
    (∀ (s : UseRsv.RsvState), (UseRsv.fetchBegin s).loading = true) ∧
    (∀ (s : UseRsv.RsvState) o, (UseRsv.fetchComplete s o).loading = false) ∧
    (∀ (s : UseRsv.RsvState) o, s.loading = false →
      UseRsv.fetchItems s o = (UseRsv.fetchComplete (UseRsv.fetchBegin s) o, true)) ∧
    (∀ (s : UseRsv.RsvState) o,
      UseRsv.fetchItems (UseRsv.fetchBegin s) o = (UseRsv.fetchBegin s, false)) ∧
    (∀ (s : UseRsv.RsvState) o, s.creating = true → UseRsv.create s o = (s, false)) ∧
    (∀ (s : UseRsv.RsvState), (UseRsv.createBegin s).creating = true) ∧
    (∀ (s : UseRsv.RsvState) o, (UseRsv.createComplete s o).creating = false) ∧
    (∀ (s : UseRsv.RsvState) o, s.creating = false →
      UseRsv.create s o = (UseRsv.createComplete (UseRsv.createBegin s) o, true)) ∧
    (∀ (s : UseRsv.RsvState) o, s.updating = true → UseRsv.updateStatusFn s o = (s, false)) ∧
    (∀ (s : UseRsv.RsvState), (UseRsv.updateStatusBegin s).updating = true) ∧
    (∀ (s : UseRsv.RsvState) o, (UseRsv.updateStatusComplete s o).updating = false) ∧
    (∀ (s : UseRsv.RsvState) o, s.updating = false →
      UseRsv.updateStatusFn s o =
        (UseRsv.updateStatusComplete (UseRsv.updateStatusBegin s) o, true)) ∧
    (∀ (cid : String) (s : UseRsv.RsvState) o, s.deleting = true →
      UseRsv.remove cid s o = (s, false)) ∧
    (∀ (s : UseRsv.RsvState), (UseRsv.removeBegin s).deleting = true) ∧
    (∀ (cid : String) (s : UseRsv.RsvState) o,
      (UseRsv.removeComplete cid s o).deleting = false) ∧
    (∀ (cid : String) (s : UseRsv.RsvState) o, s.deleting = false →
      UseRsv.remove cid s o = (UseRsv.removeComplete cid (UseRsv.removeBegin s) o, true)) :=
  ⟨fun _ o h => by simp [UseInv.fetchItems, h],
   fun _ => rfl,
   fun s o => by rcases o with r | e
                 · rcases r <;> rfl
                 · rfl,
   fun _ o h => by simp [UseInv.fetchItems, h],
   fun _ o => by simp [UseInv.fetchItems, UseInv.fetchBegin],
   fun _ o h => by simp [UseInv.add, h],
   fun _ => rfl,
   fun s o => by rcases o with r | e
                 · rcases r <;> rfl
                 · rfl,
   fun _ o h => by simp [UseInv.add, h],
   fun _ o h => by simp [UseInv.update, h],
   fun _ => rfl,
   fun s o => by rcases o with r | e
                 · rcases r <;> rfl
                 · rfl,
   fun _ o h => by simp [UseInv.update, h],
   fun _ _ o h => by simp [UseInv.remove, h],
   fun _ => rfl,
   fun _ s o => by rcases o with r | e
                   · rcases r <;> rfl
                   · rfl,
   fun _ _ o h => by simp [UseInv.remove, h],
   fun _ o h => by simp [UseRsv.fetchItems, h],
   fun _ => rfl,
   fun s o => by rcases o with r | e
                 · rcases r <;> rfl
                 · rfl,
   fun _ o h => by simp [UseRsv.fetchItems, h],
   fun _ o => by simp [UseRsv.fetchItems, UseRsv.fetchBegin],
   fun _ o h => by simp [UseRsv.create, h],
   fun _ => rfl,
   fun s o => by rcases o with r | e
                 · rcases r <;> rfl
                 · rfl,
   fun _ o h => by simp [UseRsv.create, h],
   fun _ o h => by simp [UseRsv.updateStatusFn, h],
   fun _ => rfl,
   fun s o => by rcases o with r | e
                 · rcases r <;> rfl
                 · rfl,
   fun _ o h => by simp [UseRsv.updateStatusFn, h],
   fun _ _ o h => by simp [UseRsv.remove, h],
   fun _ => rfl,
   fun _ s o => by rcases o with r | e
                   · rcases r <;> rfl
                   · rfl,
   fun _ _ o h => by simp [UseRsv.remove, h]⟩

/-- An inventory container state with every flag set, for exercising the
in-flight guard. -/
def c6invBusy : UseInv.InvState := ⟨[], 0, true, true, true, true, none⟩

/-- An idle inventory container state (no flag set). -/
def c6invIdle : UseInv.InvState := ⟨[], 0, false, false, false, false, none⟩

/-- A reservation container state with every flag set. -/
def c6rsvBusy : UseRsv.RsvState := ⟨[], 0, true, true, true, true, none⟩

/-- An idle reservation container state. -/
def c6rsvIdle : UseRsv.RsvState := ⟨[], 0, false, false, false, false, none⟩

/-- Witness for C6: each guard hypothesis discharged at a concrete busy or
idle container state. -/
theorem C6_in_flight_guard_witness :
    UseInv.fetchItems c6invBusy (.result (.success ([], 0))) = (c6invBusy, false) ∧
    UseInv.fetchItems c6invIdle (.result (.success ([], 0))) =
      (UseInv.fetchComplete (UseInv.fetchBegin c6invIdle) (.result (.success ([], 0))), true) ∧
    UseInv.add c6invBusy (.thrown (.nonError "x")) = (c6invBusy, false) ∧
    UseInv.add c6invIdle (.thrown (.nonError "x")) =
      (UseInv.addComplete (UseInv.addBegin c6invIdle) (.thrown (.nonError "x")), true) ∧
    UseInv.update c6invBusy (.result (.failure ["e"])) = (c6invBusy, false) ∧
    UseInv.update c6invIdle (.result (.failure ["e"])) =
      (UseInv.updateComplete (UseInv.updateBegin c6invIdle) (.result (.failure ["e"])), true) ∧
    UseInv.remove "dev-1" c6invBusy (.result (.success ())) = (c6invBusy, false) ∧
    UseInv.remove "dev-1" c6invIdle (.result (.success ())) =
      (UseInv.removeComplete "dev-1" (UseInv.removeBegin c6invIdle) (.result (.success ())), true) ∧
    UseRsv.fetchItems c6rsvBusy (.result (.success ([], 0))) = (c6rsvBusy, false) ∧
    UseRsv.fetchItems c6rsvIdle (.result (.success ([], 0))) =
      (UseRsv.fetchComplete (UseRsv.fetchBegin c6rsvIdle) (.result (.success ([], 0))), true) ∧
    UseRsv.create c6rsvBusy (.thrown (.nonError "x")) = (c6rsvBusy, false) ∧
    UseRsv.create c6rsvIdle (.thrown (.nonError "x")) =
      (UseRsv.createComplete (UseRsv.createBegin c6rsvIdle) (.thrown (.nonError "x")), true) ∧
    UseRsv.updateStatusFn c6rsvBusy (.result (.failure ["e"])) = (c6rsvBusy, false) ∧
    UseRsv.updateStatusFn c6rsvIdle (.result (.failure ["e"])) =
      (UseRsv.updateStatusComplete (UseRsv.updateStatusBegin c6rsvIdle)
        (.result (.failure ["e"])), true) ∧
    UseRsv.remove "res-1" c6rsvBusy (.result (.success ())) = (c6rsvBusy, false) ∧
    UseRsv.remove "res-1" c6rsvIdle (.result (.success ())) =
      (UseRsv.removeComplete "res-1" (UseRsv.removeBegin c6rsvIdle) (.result (.success ())), true) := by
  obtain ⟨i1, i2, i3, i4, i5, i6, i7, i8, i9, i10, i11, i12, i13, i14, i15, i16,
    i17, r1, r2, r3, r4, r5, r6, r7, r8, r9, r10, r11, r12, r13, r14, r15, r16,
    r17⟩ := C6_in_flight_guard
  exact ⟨i1 _ _ rfl, i4 _ _ rfl, i6 _ _ rfl, i9 _ _ rfl, i10 _ _ rfl,
    i13 _ _ rfl, i14 _ _ _ rfl, i17 _ _ _ rfl, r1 _ _ rfl, r4 _ _ rfl,
    r6 _ _ rfl, r9 _ _ rfl, r10 _ _ rfl, r13 _ _ rfl, r14 _ _ _ rfl,
    r17 _ _ _ rfl⟩

/-- C7 (confirmed): when a delete operation proceeds and its use case reports
success, the new item list is the old one with every entry of the deleted id
filtered out, and the new `totalCount` is `max(old totalCount - 1, new
length)` — so the count is never computed as less than the resulting array
length.  Proved for the inventory and the reservation container alike. -/
theorem C7_delete_updates_count (si : UseInv.InvState) (ci : String)
    (hi : si.deleting = false)
    (sr : UseRsv.RsvState) (cr : String) (hr : sr.deleting = false) :
    ((UseInv.remove ci si (.result (.success ()))).1.items =
        si.items.filter (fun (i : Device) => i.id != ci) ∧
      (UseInv.remove ci si (.result (.success ()))).1.totalCount =
        max (si.totalCount - 1)
          (((UseInv.remove ci si (.result (.success ()))).1.items.length : Int)) ∧
      (((UseInv.remove ci si (.result (.success ()))).1.items.length : Int)) ≤
        (UseInv.remove ci si (.result (.success ()))).1.totalCount) ∧
    ((UseRsv.remove cr sr (.result (.success ()))).1.items =
        sr.items.filter (fun (i : Reservation) => i.id != cr) ∧
      (UseRsv.remove cr sr (.result (.success ()))).1.totalCount =
        max (sr.totalCount - 1)
          (((UseRsv.remove cr sr (.result (.success ()))).1.items.length : Int)) ∧
      (((UseRsv.remove cr sr (.result (.success ()))).1.items.length : Int)) ≤
        (UseRsv.remove cr sr (.result (.success ()))).1.totalCount) := by
  refine ⟨⟨?_, ?_, ?_⟩, ⟨?_, ?_, ?_⟩⟩ <;>
    simp [UseInv.remove, UseRsv.remove, hi, hr,
      UseInv.removeBegin, UseRsv.removeBegin,
      UseInv.removeComplete, UseRsv.removeComplete]

/-- The single-item container states used to exercise C7 concretely. -/
def c7inv : UseInv.InvState :=
  ⟨[⟨"dev-1", "Laptop", "x", some 1, 0⟩], 1, false, false, false, false, none⟩

/-- The single-reservation container state for C7. -/
def c7rsv : UseRsv.RsvState :=
  ⟨[⟨"res-1", "u", "d", "Laptop", .reserved, 0, 0, none, none⟩], 1,
    false, false, false, false, none⟩

/-- Witness for C7: deleting the only item yields `totalCount = 0` and an
empty item list, in both containers. -/
theorem C7_delete_updates_count_witness :
    (UseInv.remove "dev-1" c7inv (.result (.success ()))).1.items = [] ∧
    (UseInv.remove "dev-1" c7inv (.result (.success ()))).1.totalCount = 0 ∧
    (UseRsv.remove "res-1" c7rsv (.result (.success ()))).1.items = [] ∧
    (UseRsv.remove "res-1" c7rsv (.result (.success ()))).1.totalCount = 0 := by
  obtain ⟨⟨hi1, hi2, _⟩, ⟨hr1, hr2, _⟩⟩ :=
    C7_delete_updates_count c7inv "dev-1" rfl c7rsv "res-1" rfl
  refine ⟨hi1.trans (by decide), hi2.trans ?_, hr1.trans (by decide), hr2.trans ?_⟩
  · rw [hi1]
    decide
  · rw [hr1]
    decide

/-- Mapping a replace-if function over a list none of whose members satisfy
the test is the identity. -/
theorem listMapReplaceEq {α : Type} (l : List α) (p : α → Prop) [DecidablePred p]
    (u : α) (h : ∀ i ∈ l, ¬p i) : l.map (fun i => if p i then u else i) = l := by
  induction l with
  | nil => rfl
  | cons a as ih =>
    have ha := h a (List.mem_cons_self a as)
    have has : ∀ i ∈ as, ¬p i := fun i hi => h i (List.mem_cons_of_mem a hi)
    simp [if_neg ha, ih has]

/-- C10 (confirmed): when an update operation proceeds and its use case
reports success, the container keeps `totalCount` unchanged, keeps the item
list's length and order (each position is the returned item where the old
id matched, the old element otherwise), leaves `error` at `null`, and leaves
the item list completely unchanged when no id matches.  Proved for the
inventory container's `update` and the reservation container's
`updateStatusFn`. -/
theorem C10_update_frame (si : UseInv.InvState) (d : Device)
    (hi : si.updating = false)
    (sr : UseRsv.RsvState) (r : Reservation) (hr : sr.updating = false) :
    ((UseInv.update si (.result (.success d))).1.totalCount = si.totalCount ∧
      (UseInv.update si (.result (.success d))).1.items =
        si.items.map (fun (i : Device) => if i.id == d.id then d else i) ∧
      (UseInv.update si (.result (.success d))).1.items.length = si.items.length ∧
      (UseInv.update si (.result (.success d))).1.error = none ∧
      ((∀ i ∈ si.items, i.id ≠ d.id) →
        (UseInv.update si (.result (.success d))).1.items = si.items)) ∧
    ((UseRsv.updateStatusFn sr (.result (.success r))).1.totalCount = sr.totalCount ∧
      (UseRsv.updateStatusFn sr (.result (.success r))).1.items =
        sr.items.map (fun (i : Reservation) => if i.id == r.id then r else i) ∧
      (UseRsv.updateStatusFn sr (.result (.success r))).1.items.length =
        sr.items.length ∧
      (UseRsv.updateStatusFn sr (.result (.success r))).1.error = none ∧
      ((∀ i ∈ sr.items, i.id ≠ r.id) →
        (UseRsv.updateStatusFn sr (.result (.success r))).1.items = sr.items)) := by
  refine ⟨⟨?_, ?_, ?_, ?_, fun hno => ?_⟩, ⟨?_, ?_, ?_, ?_, fun hno => ?_⟩⟩ <;>
    simp [UseInv.update, UseRsv.updateStatusFn, hi, hr,
      UseInv.updateBegin, UseRsv.updateStatusBegin,
      UseInv.updateComplete, UseRsv.updateStatusComplete]
  · exact listMapReplaceEq si.items (fun i => i.id = d.id) d hno
  · exact listMapReplaceEq sr.items (fun i => i.id = r.id) r hno

/-- The two-item inventory container state used to exercise C10 concretely. -/
def c10inv : UseInv.InvState :=
  ⟨[⟨"dev-1", "Laptop", "x", some 1, 0⟩, ⟨"dev-2", "Cam", "y", some 2, 0⟩], 7,
    false, false, false, false, some "old"⟩

/-- The one-reservation container state for C10. -/
def c10rsv : UseRsv.RsvState :=
  ⟨[⟨"res-1", "u", "d", "Laptop", .reserved, 0, 0, none, none⟩], 3,
    false, false, false, false, some "old"⟩

/-- Witness for C10: a successful update of `dev-2` (and of `res-1`) replaces
exactly the matching item, keeps the count, clears the error; an update whose
returned id matches nothing leaves the items untouched. -/
theorem C10_update_frame_witness :
    (UseInv.update c10inv (.result (.success ⟨"dev-2", "Cam2", "z", some 9, 5⟩))).1.totalCount = 7 ∧
    (UseInv.update c10inv (.result (.success ⟨"dev-2", "Cam2", "z", some 9, 5⟩))).1.items =
      [⟨"dev-1", "Laptop", "x", some 1, 0⟩, ⟨"dev-2", "Cam2", "z", some 9, 5⟩] ∧
    (UseInv.update c10inv (.result (.success ⟨"dev-2", "Cam2", "z", some 9, 5⟩))).1.error = none ∧
    (UseInv.update c10inv (.result (.success ⟨"dev-9", "Mic", "w", none, 5⟩))).1.items =
      c10inv.items ∧
    (UseRsv.updateStatusFn c10rsv
        (.result (.success ⟨"res-1", "u", "d", "Laptop", .collected, 0, 9, some 9, none⟩))).1.items =
      [⟨"res-1", "u", "d", "Laptop", .collected, 0, 9, some 9, none⟩] ∧
    (UseRsv.updateStatusFn c10rsv
        (.result (.success ⟨"res-1", "u", "d", "Laptop", .collected, 0, 9, some 9, none⟩))).1.totalCount = 3 := by
  obtain ⟨⟨ha1, ha2, _, ha4, _⟩, _⟩ :=
    C10_update_frame c10inv ⟨"dev-2", "Cam2", "z", some 9, 5⟩ rfl c10rsv
      ⟨"res-1", "u", "d", "Laptop", .collected, 0, 9, some 9, none⟩ rfl
  obtain ⟨⟨_, _, _, _, hb5⟩, ⟨hc1, hc2, _, _, _⟩⟩ :=
    C10_update_frame c10inv ⟨"dev-9", "Mic", "w", none, 5⟩ rfl c10rsv
      ⟨"res-1", "u", "d", "Laptop", .collected, 0, 9, some 9, none⟩ rfl
  exact ⟨ha1, ha2.trans (by decide), ha4, hb5 (by decide), hc2.trans (by decide), hc1⟩
